import Mathlib

/-!
Verification of the resource simulation core of the openshift-hive-simulator
repository: a shallow embedding of the configuration data model, the three
per-kind state machines, the behavior engine and the dependency checks of the
ClusterDeployment reconciler, together with theorems settling the stated
properties of the specification.

Conventions of the embedding:
* Go `time.Duration` values are modelled as `Int` nanoseconds; `second` is the
  constant `time.Second`.
* Go `metav1.Time` / `time.Now()` values are modelled as an explicit `Int`
  parameter threaded into the stateful functions.
* Go `float64` probabilities are modelled as `ℚ`; one call of `rng.Float64()`
  is one value drawn from an explicit sample stream `Nat → ℚ` at the next
  unused index, each sample lying in `[0, 1)`.
* Go maps are modelled as functions into `Option`; a comma-ok map read is the
  `Option` itself, a plain map read is `Option.getD` with the zero value.
* A Go method returning a mutated receiver plus an `error` is modelled as a
  function returning the new resource paired with `Option String` (the error).
-/

/-- One nanosecond count of Go `time.Second`. -/
def second : Int := 1000000000

/-- Tri-state condition status (`corev1.ConditionStatus`). -/
inductive ConditionStatus where
  | ctrue
  | cfalse
  | cunknown
deriving DecidableEq

/-- Condition configuration entry (`config.ConditionConfig`). -/
structure ConditionConfig where
  type : String
  status : String
  reason : String
  message : String
deriving DecidableEq

/-- State sequence entry (`config.StateConfig`). -/
structure StateConfig where
  name : String
  durationSeconds : Int
  conditions : List ConditionConfig
deriving DecidableEq

/-- Failure scenario (`config.FailureScenario`). -/
structure FailureScenario where
  probability : ℚ
  condition : String
  message : String
  reason : String
deriving DecidableEq

/-- Per-kind configuration for ClusterDeployment (`config.ClusterDeploymentConfig`). -/
structure ClusterDeploymentConfig where
  defaultDelaySeconds : Int
  states : List StateConfig
  failureScenarios : List FailureScenario
  dependsOnAccountClaim : Bool
  dependsOnProjectClaim : Bool
deriving DecidableEq

/-- Per-kind configuration for AccountClaim (`config.AccountClaimConfig`). -/
structure AccountClaimConfig where
  defaultDelaySeconds : Int
  states : List StateConfig
  failureScenarios : List FailureScenario
deriving DecidableEq

/-- Per-kind configuration for ProjectClaim (`config.ProjectClaimConfig`). -/
structure ProjectClaimConfig where
  defaultDelaySeconds : Int
  states : List StateConfig
  failureScenarios : List FailureScenario
deriving DecidableEq

/-- Top-level configuration (`config.Config`); the per-kind sub-objects are Go
pointers that may be nil, hence `Option`. -/
structure SimConfig where
  clusterDeployment : Option ClusterDeploymentConfig
  accountClaim : Option AccountClaimConfig
  projectClaim : Option ProjectClaimConfig

/-- Status condition as stored on a resource; the same field set is shared by
`hivev1.ClusterDeploymentCondition`, `aaov1alpha1.AccountClaimCondition` and
`gcpv1alpha1.Condition`. -/
structure Condition where
  type : String
  status : ConditionStatus
  reason : String
  message : String
  lastTransitionTime : Int
  lastProbeTime : Int
deriving DecidableEq

/-- Spec of a ClusterDeployment (the fields the simulator reads or writes). -/
structure ClusterDeploymentSpec where
  installed : Bool
  clusterMetadataInfraID : Option String
deriving DecidableEq

/-- Status of a ClusterDeployment (the fields the simulator reads or writes). -/
structure ClusterDeploymentStatus where
  conditions : List Condition
  provisionRefName : Option String
  webConsoleURL : String
  apiURL : String
  installedTimestamp : Option Int
deriving DecidableEq

/-- ClusterDeployment resource; `labels` models the Kubernetes label map. -/
structure ClusterDeployment where
  nspace : String
  name : String
  labels : String → Option String
  spec : ClusterDeploymentSpec
  status : ClusterDeploymentStatus

/-- Status of an AccountClaim; `state` models `aaov1alpha1.ClaimStatus`. -/
structure AccountClaimStatus where
  state : String
  conditions : List Condition
deriving DecidableEq

/-- Spec of an AccountClaim (the field the simulator writes). -/
structure AccountClaimSpec where
  byocAWSAccountID : String
deriving DecidableEq

/-- AccountClaim resource. -/
structure AccountClaim where
  nspace : String
  name : String
  labels : String → Option String
  spec : AccountClaimSpec
  status : AccountClaimStatus

/-- Status of a ProjectClaim; `state` models `gcpv1alpha1.ClaimStatus`. -/
structure ProjectClaimStatus where
  state : String
  conditions : List Condition
deriving DecidableEq

/-- Spec of a ProjectClaim (the field the simulator writes). -/
structure ProjectClaimSpec where
  gcpProjectID : String
deriving DecidableEq

/-- ProjectClaim resource. -/
structure ProjectClaim where
  nspace : String
  name : String
  labels : String → Option String
  spec : ProjectClaimSpec
  status : ProjectClaimStatus

/-- External API constant `aaov1alpha1.ClaimStatusPending` /
`gcpv1alpha1.ClaimStatusPending` (the literal also appears in the state
machine sources and the default configuration). -/
def claimStatusPending : String := "Pending"

/-- External API constant `gcpv1alpha1.ClaimStatusPendingProject`. -/
def claimStatusPendingProject : String := "PendingProject"

/-- External API constant `ClaimStatusReady` of both claim APIs. -/
def claimStatusReady : String := "Ready"

/-- External API constant `ClaimStatusError` of both claim APIs. -/
def claimStatusError : String := "Error"

/-- Modelled from the spec: the correlation-key label key of the missing
`pkg/labels` package (`labels.ID`); only its identity, never its exact text,
matters to any property proved below. -/
def labelsID : String := "api.openshift.com/id"

/-- State signal of one ClusterDeployment condition, as read by the switch in
`getCurrentState`: a recognised type whose status matches yields a state, any
other condition yields nothing and the scan continues. -/
def condSignal (c : Condition) : Option String :=
  if c.type = "ClusterDeploymentCompleted" then
    if c.status = ConditionStatus.ctrue then some "Running" else none
  else if c.type = "DNSNotReady" then
    if c.status = ConditionStatus.cfalse then some "Installing" else none
  else if c.type = "DeprovisionLaunchError" then
    if c.status = ConditionStatus.cfalse then some "Provisioning" else none
  else none

/-- First state signal found while scanning the condition list in order. -/
def findCondState : List Condition → Option String
  | [] => none
  | c :: rest =>
    match condSignal c with
    | some s => some s
    | none => findCondState rest

/-- Embedding of `ClusterDeploymentStateMachine.getCurrentState`. -/
def cdGetCurrentState (cd : ClusterDeployment) : String :=
  if cd.spec.installed then "Running"
  else
    match findCondState cd.status.conditions with
    | some s => s
    | none =>
      if cd.status.provisionRefName.isSome then "Provisioning" else "Pending"

/-- The state-lookup loop shared by the three `GetNextState` implementations:
find the first entry accepted by the match predicate; if it is the last entry
return its name with zero duration, otherwise return the following entry with
its configured duration scaled to a duration. -/
def findNextInStates (accept : StateConfig → Bool) : List StateConfig → Option (String × Int)
  | [] => none
  | s :: rest =>
    if accept s then
      match rest with
      | [] => some (s.name, 0)
      | next :: _ => some (next.name, next.durationSeconds * second)
    else findNextInStates accept rest

/-- Match predicate of the claim-kind `GetNextState` loops: the stored state
equals the entry name, or the stored state is empty and the entry is named
"Pending". -/
def claimMatches (current : String) (s : StateConfig) : Bool :=
  s.name == current || (current == "" && s.name == "Pending")

/-- Embedding of `ClusterDeploymentStateMachine.GetNextState`. -/
def cdGetNextState (cfg : ClusterDeploymentConfig) (cd : ClusterDeployment) : String × Int :=
  let current := cdGetCurrentState cd
  match findNextInStates (fun s => s.name == current) cfg.states with
  | some r => r
  | none =>
    match cfg.states with
    | first :: _ => (first.name, first.durationSeconds * second)
    | [] => ("Pending", 5 * second)

/-- Embedding of `AccountClaimStateMachine.GetNextState`. -/
def acGetNextState (cfg : AccountClaimConfig) (ac : AccountClaim) : String × Int :=
  match findNextInStates (claimMatches ac.status.state) cfg.states with
  | some r => r
  | none =>
    match cfg.states with
    | first :: _ => (first.name, first.durationSeconds * second)
    | [] => (claimStatusPending, 3 * second)

/-- Embedding of `ProjectClaimStateMachine.GetNextState`. -/
def pcGetNextState (cfg : ProjectClaimConfig) (pc : ProjectClaim) : String × Int :=
  match findNextInStates (claimMatches pc.status.state) cfg.states with
  | some r => r
  | none =>
    match cfg.states with
    | first :: _ => (first.name, first.durationSeconds * second)
    | [] => (claimStatusPending, 4 * second)

/-- Embedding of `ClusterDeploymentStateMachine.buildConditions`: one condition
per configured condition entry, the status string decoded into the tri-state
value, both timestamps stamped with the application time. -/
def buildConditions (stateConfig : StateConfig) (now : Int) : List Condition :=
  stateConfig.conditions.map (fun cc =>
    { type := cc.type
      status :=
        if cc.status = "True" then ConditionStatus.ctrue
        else if cc.status = "False" then ConditionStatus.cfalse
        else ConditionStatus.cunknown
      reason := cc.reason
      message := cc.message
      lastTransitionTime := now
      lastProbeTime := now })

/-- The state-config lookup loop of `ClusterDeploymentStateMachine.ApplyState`:
first configured entry carrying the requested name. -/
def findStateConfig (states : List StateConfig) (state : String) : Option StateConfig :=
  states.find? (fun s => s.name == state)

/-- Embedding of `ClusterDeploymentStateMachine.ApplyState`; returns the
resource after the mutations together with the optional error. The error is
produced, and nothing is mutated, exactly when the lookup fails. -/
def cdApplyState (cfg : ClusterDeploymentConfig) (cd : ClusterDeployment)
    (state : String) (now : Int) : ClusterDeployment × Option String :=
  match findStateConfig cfg.states state with
  | none => (cd, some ("state " ++ state ++ " not found in configuration"))
  | some stateConfig =>
    let cd := { cd with status := { cd.status with conditions := buildConditions stateConfig now } }
    if state = "Provisioning" then
      ({ cd with status := { cd.status with provisionRefName := some (cd.name ++ "-provision") } },
       none)
    else if state = "Installing" then
      ({ cd with status := { cd.status with
           webConsoleURL := "https://console-openshift-console.apps." ++ cd.name ++ ".example.com"
           apiURL := "https://api." ++ cd.name ++ ".example.com:6443" } },
       none)
    else if state = "Running" then
      ({ cd with
           spec := { cd.spec with
             installed := true
             clusterMetadataInfraID := some (cd.name ++ "-infra") }
           status := { cd.status with
             installedTimestamp := some now
             webConsoleURL := "https://console-openshift-console.apps." ++ cd.name ++ ".example.com"
             apiURL := "https://api." ++ cd.name ++ ".example.com:6443" } },
       none)
    else (cd, none)

/-- Decimal rendering of `fmt.Sprintf("%03d", n)` for `0 ≤ n < 1000`. -/
def pad3 (n : Nat) : String :=
  if n < 10 then "00" ++ toString n
  else if n < 100 then "0" ++ toString n
  else toString n

/-- Simulated AWS account id `fmt.Sprintf("123456789%03d", unix % 1000)`. -/
def synthAWSAccountID (unixTime : Int) : String :=
  "123456789" ++ pad3 (unixTime % 1000).toNat

/-- Simulated GCP project id `fmt.Sprintf("project-%s-%d", name, unix % 10000)`. -/
def synthGCPProjectID (name : String) (unixTime : Int) : String :=
  "project-" ++ name ++ "-" ++ toString (unixTime % 10000).toNat

/-- Fixed condition emitted by `AccountClaimStateMachine.ApplyState` for the
Pending state. -/
def acPendingCondition (now : Int) : Condition :=
  { type := "AccountUnclaimed", status := ConditionStatus.ctrue
    reason := "AccountPending", message := "Account claim is pending"
    lastTransitionTime := now, lastProbeTime := now }

/-- Fixed condition emitted by `AccountClaimStateMachine.ApplyState` for the
Ready state. -/
def acReadyCondition (now : Int) : Condition :=
  { type := "AccountClaimed", status := ConditionStatus.ctrue
    reason := "AccountClaimed", message := "Account has been claimed"
    lastTransitionTime := now, lastProbeTime := now }

/-- Fixed condition emitted by `AccountClaimStateMachine.ApplyState` for the
Error state. -/
def acErrorCondition (now : Int) : Condition :=
  { type := "AccountClaimFailed", status := ConditionStatus.ctrue
    reason := "ClaimFailed", message := "Account claim failed"
    lastTransitionTime := now, lastProbeTime := now }

/-- Embedding of `AccountClaimStateMachine.ApplyState`; the stored state is set
unconditionally, the switch recognises three states, and the Go method returns
nil on every path, so the error component is always `none`. The machine never
consults its configuration here. -/
def acApplyState (_cfg : AccountClaimConfig) (ac : AccountClaim)
    (state : String) (now : Int) (unixTime : Int) : AccountClaim × Option String :=
  let ac := { ac with status := { ac.status with state := state } }
  if state = claimStatusPending then
    ({ ac with status := { ac.status with conditions := [acPendingCondition now] } }, none)
  else if state = claimStatusReady then
    let ac := { ac with status := { ac.status with conditions := [acReadyCondition now] } }
    if ac.spec.byocAWSAccountID = "" then
      ({ ac with spec := { ac.spec with byocAWSAccountID := synthAWSAccountID unixTime } }, none)
    else (ac, none)
  else if state = claimStatusError then
    ({ ac with status := { ac.status with conditions := [acErrorCondition now] } }, none)
  else (ac, none)

/-- Fixed condition emitted by `ProjectClaimStateMachine.ApplyState` for the
Pending state. -/
def pcPendingCondition (now : Int) : Condition :=
  { type := "Pending", status := ConditionStatus.ctrue
    reason := "ProjectPending", message := "Project claim is pending"
    lastTransitionTime := now, lastProbeTime := now }

/-- Fixed condition emitted by `ProjectClaimStateMachine.ApplyState` for the
PendingProject state. -/
def pcPendingProjectCondition (now : Int) : Condition :=
  { type := "PendingProject", status := ConditionStatus.ctrue
    reason := "ProjectCreating", message := "GCP project is being created"
    lastTransitionTime := now, lastProbeTime := now }

/-- Fixed condition emitted by `ProjectClaimStateMachine.ApplyState` for the
Ready state. -/
def pcReadyCondition (now : Int) : Condition :=
  { type := "Ready", status := ConditionStatus.ctrue
    reason := "ProjectReady", message := "GCP project is ready"
    lastTransitionTime := now, lastProbeTime := now }

/-- Fixed condition emitted by `ProjectClaimStateMachine.ApplyState` for the
Error state. -/
def pcErrorCondition (now : Int) : Condition :=
  { type := "Error", status := ConditionStatus.ctrue
    reason := "ClaimFailed", message := "Project claim failed"
    lastTransitionTime := now, lastProbeTime := now }

/-- Embedding of `ProjectClaimStateMachine.ApplyState`; the stored state is set
unconditionally, the switch recognises four states, the project id is
synthesised in the PendingProject and Ready branches only when still empty,
and the Go method returns nil on every path. The machine never consults its
configuration here. -/
def pcApplyState (_cfg : ProjectClaimConfig) (pc : ProjectClaim)
    (state : String) (now : Int) (unixTime : Int) : ProjectClaim × Option String :=
  let pc := { pc with status := { pc.status with state := state } }
  if state = claimStatusPending then
    ({ pc with status := { pc.status with conditions := [pcPendingCondition now] } }, none)
  else if state = claimStatusPendingProject then
    let pc := { pc with status := { pc.status with conditions := [pcPendingProjectCondition now] } }
    if pc.spec.gcpProjectID = "" then
      ({ pc with spec := { pc.spec with gcpProjectID := synthGCPProjectID pc.name unixTime } }, none)
    else (pc, none)
  else if state = claimStatusReady then
    let pc := { pc with status := { pc.status with conditions := [pcReadyCondition now] } }
    if pc.spec.gcpProjectID = "" then
      ({ pc with spec := { pc.spec with gcpProjectID := synthGCPProjectID pc.name unixTime } }, none)
    else (pc, none)
  else if state = claimStatusError then
    ({ pc with status := { pc.status with conditions := [pcErrorCondition now] } }, none)
  else (pc, none)

/-- Per-resource behavioral override (`config.ResourceOverride`). -/
structure ResourceOverride where
  resourceName : String
  delaySeconds : Option Int
  forceFail : Option FailureScenario
  forceSuccess : Bool
deriving DecidableEq

/-- Behavior engine state (`behavior.Engine`): the configuration and the
override registry map keyed by `makeKey`. -/
structure Engine where
  config : SimConfig
  overrides : String → Option ResourceOverride

/-- Embedding of `Engine.makeKey`. -/
def makeKey (resourceType nspace name : String) : String :=
  resourceType ++ "/" ++ nspace ++ "/" ++ name

/-- Embedding of `Engine.SetResourceOverride`: store the supplied override as
the value at the key, replacing whatever was there. -/
def setResourceOverride (e : Engine) (resourceType nspace name : String)
    (override : ResourceOverride) : Engine :=
  { e with overrides := fun k =>
      if k = makeKey resourceType nspace name then some override else e.overrides k }

/-- Embedding of `Engine.ClearResourceOverride`: delete the key. -/
def clearResourceOverride (e : Engine) (resourceType nspace name : String) : Engine :=
  { e with overrides := fun k =>
      if k = makeKey resourceType nspace name then none else e.overrides k }

/-- Kind dispatch of the probabilistic section of `Engine.ShouldFail`: failure
scenarios of the named kind, empty for a nil sub-config or an unknown kind. -/
def scenariosFor (cfg : SimConfig) (resourceType : String) : List FailureScenario :=
  if resourceType = "ClusterDeployment" then
    match cfg.clusterDeployment with
    | some c => c.failureScenarios
    | none => []
  else if resourceType = "AccountClaim" then
    match cfg.accountClaim with
    | some c => c.failureScenarios
    | none => []
  else if resourceType = "ProjectClaim" then
    match cfg.projectClaim with
    | some c => c.failureScenarios
    | none => []
  else []

/-- The scenario loop of `Engine.ShouldFail`: walk the scenarios in declaration
order; a scenario with positive probability draws the next sample from the
stream and fires when the sample is below its probability; a scenario without
positive probability draws nothing and never fires. -/
def evalScenarios : List FailureScenario → (Nat → ℚ) → Nat → Option FailureScenario
  | [], _, _ => none
  | s :: rest, samples, i =>
    if 0 < s.probability then
      if samples i < s.probability then some s
      else evalScenarios rest samples (i + 1)
    else evalScenarios rest samples i

/-- Embedding of `Engine.ShouldFail`; `some scenario` models the Go result
`(true, scenario)`, `none` models `(false, nil)`. -/
def shouldFail (e : Engine) (resourceType nspace name : String)
    (samples : Nat → ℚ) : Option FailureScenario :=
  let key := makeKey resourceType nspace name
  match e.overrides key with
  | some override =>
    if override.forceSuccess then none
    else
      match override.forceFail with
      | some f => some f
      | none => evalScenarios (scenariosFor e.config resourceType) samples 0
  | none => evalScenarios (scenariosFor e.config resourceType) samples 0

/-- Embedding of `Engine.GetTransitionDelay`. -/
def getTransitionDelay (e : Engine) (resourceType nspace name : String)
    (defaultDuration : Int) : Int :=
  match e.overrides (makeKey resourceType nspace name) with
  | some override =>
    match override.delaySeconds with
    | some d => d * second
    | none => defaultDuration
  | none => defaultDuration

/-- Override constructed by the HTTP handler `Handlers.SetResourceDelay`: only
the resource name and the delay are populated. -/
def delayOnlyOverride (name : String) (delaySeconds : Int) : ResourceOverride :=
  { resourceName := name
    delaySeconds := some delaySeconds
    forceFail := none
    forceSuccess := false }

/-- The claim-scanning loop shared by `checkAccountClaim` / `checkProjectClaim`
of the ClusterDeployment reconciler, abstracted over how a list item exposes
its label map and its state: the first item whose correlation label (missing
label reads as the empty string) equals the cluster id decides; a Ready state
yields ready with zero retry, any other state yields not-ready with the short
retry; an exhausted list yields not-ready with the short retry. -/
def claimLoop (labelOf : α → Option String) (stateOf : α → String)
    (clusterID : String) : List α → Bool × Int
  | [] => (false, 2 * second)
  | c :: rest =>
    if (labelOf c).getD "" = clusterID then
      if stateOf c = claimStatusReady then (true, 0) else (false, 2 * second)
    else claimLoop labelOf stateOf clusterID rest

/-- Embedding of `ClusterDeploymentReconciler.checkAccountClaim`; the list call
against the store is modelled by its outcome: `Except.error` for a failed
list, `Except.ok` with the items of the namespace otherwise. -/
def checkAccountClaim (cd : ClusterDeployment)
    (listResult : Except Unit (List AccountClaim)) : Bool × Int :=
  match cd.labels labelsID with
  | none => (true, 0)
  | some clusterID =>
    match listResult with
    | Except.error _ => (false, 5 * second)
    | Except.ok items =>
      claimLoop (fun ac => ac.labels labelsID) (fun ac => ac.status.state) clusterID items

/-- Embedding of `ClusterDeploymentReconciler.checkProjectClaim`. -/
def checkProjectClaim (cd : ClusterDeployment)
    (listResult : Except Unit (List ProjectClaim)) : Bool × Int :=
  match cd.labels labelsID with
  | none => (true, 0)
  | some clusterID =>
    match listResult with
    | Except.error _ => (false, 5 * second)
    | Except.ok items =>
      claimLoop (fun pc => pc.labels labelsID) (fun pc => pc.status.state) clusterID items

/-- Lemma: the state-lookup loop skips every rejected entry. -/
theorem findNextInStates_append (accept : StateConfig → Bool) (pre rest : List StateConfig)
    (h : ∀ s ∈ pre, accept s = false) :
    findNextInStates accept (pre ++ rest) = findNextInStates accept rest := by
  induction pre with
  | nil => rfl
  | cons a t ih =>
    have ha : accept a = false := h a (by simp)
    simp only [List.cons_append, findNextInStates, ha, Bool.false_eq_true, if_false]
    exact ih (fun s hs => h s (by simp [hs]))

/-- Lemma: the state-lookup loop finds nothing when every entry is rejected. -/
theorem findNextInStates_none (accept : StateConfig → Bool) (l : List StateConfig)
    (h : ∀ s ∈ l, accept s = false) :
    findNextInStates accept l = none := by
  have := findNextInStates_append accept l [] h
  simpa using this

/-- Lemma: the state-lookup loop answers at the first accepted entry: its name
with zero duration when the entry is last, otherwise the following entry with
its scaled duration. -/
theorem findNextInStates_found (accept : StateConfig → Bool)
    (pre : List StateConfig) (p : StateConfig) (post : List StateConfig)
    (hpre : ∀ s ∈ pre, accept s = false) (hp : accept p = true) :
    findNextInStates accept (pre ++ p :: post) =
      (match post with
       | [] => some (p.name, 0)
       | next :: _ => some (next.name, next.durationSeconds * second)) := by
  rw [findNextInStates_append accept pre (p :: post) hpre]
  cases post <;> simp [findNextInStates, hp]

/-- Configuration of the C1 counterexample: two states, the first named
"Pending". -/
def c1Config : ClusterDeploymentConfig :=
  { defaultDelaySeconds := 5
    states := [{ name := "Pending", durationSeconds := 1, conditions := [] },
               { name := "Running", durationSeconds := 2, conditions := [] }]
    failureScenarios := []
    dependsOnAccountClaim := false
    dependsOnProjectClaim := false }

/-- Freshly created ClusterDeployment of the C1 counterexample: no stored
state, no conditions, not installed. -/
def c1FreshCD : ClusterDeployment :=
  { nspace := "default"
    name := "test-cluster"
    labels := fun _ => none
    spec := { installed := false, clusterMetadataInfraID := none }
    status := { conditions := [], provisionRefName := none
                webConsoleURL := "", apiURL := "", installedTimestamp := none } }

/-- C1, counterexample: with the non-empty configured sequence
[Pending, Running], `GetNextState` on a freshly created ClusterDeployment
returns the second entry "Running" with its duration, not the first entry
"Pending" with the first duration. -/
theorem C1_counterexample :
    cdGetNextState c1Config c1FreshCD = ("Running", 2 * second) ∧
    cdGetNextState c1Config c1FreshCD ≠ ("Pending", 1 * second) := by
  constructor
  · decide
  · decide

/-- C1, amended: for every resource kind with a non-empty configured state
sequence, `GetNextState` on a freshly created resource (no stored state, no
conditions, not installed) returns the first configured state with its
configured duration when no configured state is named "Pending" (for claim
kinds, also none named by the empty string); when the sequence does contain a
"Pending" entry, the fresh resource is treated as already being in it, and
`GetNextState` returns the entry immediately after the first such entry with
that later duration — or "Pending" itself with zero duration when it is last —
never the first entry. -/
theorem C1_amended
    (cfg : ClusterDeploymentConfig) (acfg : AccountClaimConfig) (pcfg : ProjectClaimConfig)
    (cd : ClusterDeployment) (ac : AccountClaim) (pc : ProjectClaim)
    (hinst : cd.spec.installed = false) (hconds : cd.status.conditions = [])
    (href : cd.status.provisionRefName = none)
    (hac : ac.status.state = "") (hpc : pc.status.state = "") :
    ((∀ s ∈ cfg.states, s.name ≠ "Pending") →
      ∀ first rest, cfg.states = first :: rest →
        cdGetNextState cfg cd = (first.name, first.durationSeconds * second))
    ∧ ((∀ s ∈ acfg.states, s.name ≠ "Pending" ∧ s.name ≠ "") →
      ∀ first rest, acfg.states = first :: rest →
        acGetNextState acfg ac = (first.name, first.durationSeconds * second))
    ∧ ((∀ s ∈ pcfg.states, s.name ≠ "Pending" ∧ s.name ≠ "") →
      ∀ first rest, pcfg.states = first :: rest →
        pcGetNextState pcfg pc = (first.name, first.durationSeconds * second))
    ∧ (∀ pre p post, cfg.states = pre ++ p :: post →
        (∀ s ∈ pre, s.name ≠ "Pending") → p.name = "Pending" →
        cdGetNextState cfg cd =
          (match post with
           | [] => ("Pending", 0)
           | next :: _ => (next.name, next.durationSeconds * second)))
    ∧ (∀ pre p post, acfg.states = pre ++ p :: post →
        (∀ s ∈ pre, s.name ≠ "Pending" ∧ s.name ≠ "") → p.name = "Pending" →
        acGetNextState acfg ac =
          (match post with
           | [] => ("Pending", 0)
           | next :: _ => (next.name, next.durationSeconds * second)))
    ∧ (∀ pre p post, pcfg.states = pre ++ p :: post →
        (∀ s ∈ pre, s.name ≠ "Pending" ∧ s.name ≠ "") → p.name = "Pending" →
        pcGetNextState pcfg pc =
          (match post with
           | [] => ("Pending", 0)
           | next :: _ => (next.name, next.durationSeconds * second))) := by
  have hcur : cdGetCurrentState cd = "Pending" := by
    simp [cdGetCurrentState, hinst, hconds, href, findCondState]
  refine ⟨?_, ?_, ?_, ?_, ?_, ?_⟩
  · intro h first rest hstates
    have hnone : findNextInStates (fun s => s.name == cdGetCurrentState cd) cfg.states = none := by
      apply findNextInStates_none
      intro s hs
      simp only [hcur, beq_eq_false_iff_ne]
      exact h s hs
    rw [hstates] at hnone
    simp only [cdGetNextState, hstates, hnone]
  · intro h first rest hstates
    have hnone : findNextInStates (claimMatches ac.status.state) acfg.states = none := by
      apply findNextInStates_none
      intro s hs
      simp [claimMatches, hac, (h s hs).1, (h s hs).2]
    rw [hstates] at hnone
    simp only [acGetNextState, hstates, hnone]
  · intro h first rest hstates
    have hnone : findNextInStates (claimMatches pc.status.state) pcfg.states = none := by
      apply findNextInStates_none
      intro s hs
      simp [claimMatches, hpc, (h s hs).1, (h s hs).2]
    rw [hstates] at hnone
    simp only [pcGetNextState, hstates, hnone]
  · intro pre p post hstates hpre hp
    have hfound := findNextInStates_found (fun s => s.name == cdGetCurrentState cd) pre p post
      (fun s hs => by simp only [hcur, beq_eq_false_iff_ne]; exact hpre s hs)
      (by simp [hcur, hp])
    simp only [cdGetNextState, hstates, hfound]
    cases post <;> simp [hp]
  · intro pre p post hstates hpre hp
    have hfound := findNextInStates_found (claimMatches ac.status.state) pre p post
      (fun s hs => by simp [claimMatches, hac, (hpre s hs).1, (hpre s hs).2])
      (by simp [claimMatches, hac, hp])
    simp only [acGetNextState, hstates, hfound]
    cases post <;> simp [hp]
  · intro pre p post hstates hpre hp
    have hfound := findNextInStates_found (claimMatches pc.status.state) pre p post
      (fun s hs => by simp [claimMatches, hpc, (hpre s hs).1, (hpre s hs).2])
      (by simp [claimMatches, hpc, hp])
    simp only [pcGetNextState, hstates, hfound]
    cases post <;> simp [hp]

/-- Witness configuration for C1, ClusterDeployment kind: no state named
"Pending". -/
def c1wCfg : ClusterDeploymentConfig :=
  { defaultDelaySeconds := 5
    states := [{ name := "Init", durationSeconds := 7, conditions := [] },
               { name := "Done", durationSeconds := 1, conditions := [] }]
    failureScenarios := []
    dependsOnAccountClaim := false
    dependsOnProjectClaim := false }

/-- Witness configuration for C1, AccountClaim kind: "Pending" first. -/
def c1wAcCfg : AccountClaimConfig :=
  { defaultDelaySeconds := 3
    states := [{ name := "Pending", durationSeconds := 2, conditions := [] },
               { name := "Ready", durationSeconds := 1, conditions := [] }]
    failureScenarios := [] }

/-- Witness configuration for C1, ProjectClaim kind. -/
def c1wPcCfg : ProjectClaimConfig :=
  { defaultDelaySeconds := 4
    states := [{ name := "Pending", durationSeconds := 1, conditions := [] },
               { name := "PendingProject", durationSeconds := 2, conditions := [] },
               { name := "Ready", durationSeconds := 1, conditions := [] }]
    failureScenarios := [] }

/-- Witness fresh ClusterDeployment for C1. -/
def c1wCD : ClusterDeployment :=
  { nspace := "ns", name := "c", labels := fun _ => none
    spec := { installed := false, clusterMetadataInfraID := none }
    status := { conditions := [], provisionRefName := none
                webConsoleURL := "", apiURL := "", installedTimestamp := none } }

/-- Witness fresh AccountClaim for C1. -/
def c1wAC : AccountClaim :=
  { nspace := "ns", name := "a", labels := fun _ => none
    spec := { byocAWSAccountID := "" }
    status := { state := "", conditions := [] } }

/-- Witness fresh ProjectClaim for C1. -/
def c1wPC : ProjectClaim :=
  { nspace := "ns", name := "p", labels := fun _ => none
    spec := { gcpProjectID := "" }
    status := { state := "", conditions := [] } }

/-- Witness for the amended C1 at concrete inputs: a fresh ClusterDeployment
under a sequence without "Pending" starts at the first entry, and a fresh
AccountClaim under a sequence starting with "Pending" advances past it. -/
theorem C1_witness :
    cdGetNextState c1wCfg c1wCD = ("Init", 7 * second) ∧
    acGetNextState c1wAcCfg c1wAC = ("Ready", 1 * second) := by
  have h := C1_amended c1wCfg c1wAcCfg c1wPcCfg c1wCD c1wAC c1wPC rfl rfl rfl rfl rfl
  refine ⟨h.1 (by decide) { name := "Init", durationSeconds := 7, conditions := [] }
      [{ name := "Done", durationSeconds := 1, conditions := [] }] rfl, ?_⟩
  have hac := h.2.2.2.2.1 [] { name := "Pending", durationSeconds := 2, conditions := [] }
      [{ name := "Ready", durationSeconds := 1, conditions := [] }] rfl (by simp) rfl
  exact hac

/-- Configuration of the C2 counterexample: the name of the last entry also
appears earlier in the sequence. -/
def c2Config : ProjectClaimConfig :=
  { defaultDelaySeconds := 4
    states := [{ name := "StateA", durationSeconds := 1, conditions := [] },
               { name := "StateB", durationSeconds := 2, conditions := [] },
               { name := "StateA", durationSeconds := 3, conditions := [] }]
    failureScenarios := [] }

/-- ProjectClaim of the C2 counterexample, whose current state is the name of
the last configured entry. -/
def c2PC : ProjectClaim :=
  { nspace := "ns", name := "p", labels := fun _ => none
    spec := { gcpProjectID := "" }
    status := { state := "StateA", conditions := [] } }

/-- C2, counterexample: the current state "StateA" equals the last entry of
the configured sequence, yet `GetNextState` returns the entry after the FIRST
occurrence of that name rather than the same state with zero duration. -/
theorem C2_counterexample :
    c2PC.status.state = "StateA" ∧
    (c2Config.states.getLast?).map StateConfig.name = some "StateA" ∧
    pcGetNextState c2Config c2PC = ("StateB", 2 * second) ∧
    pcGetNextState c2Config c2PC ≠ ("StateA", 0) := by
  refine ⟨rfl, by decide, by decide, by decide⟩

/-- C2, amended: for every resource kind with a non-empty configured state
sequence, if the current derived state of the resource equals the name of the last
entry AND that name does not occur at any earlier position (the lookup matches
the first occurrence), then `GetNextState` returns that same state name with
zero duration; the conclusion holds for every resource whose derived state is
that name, so repeated calls keep returning it (idempotent terminal
fixpoint). For the claim kinds the stored state is additionally required to be
non-empty, since an empty stored state is aliased to "Pending". -/
theorem C2_amended
    (cfg : ClusterDeploymentConfig) (acfg : AccountClaimConfig) (pcfg : ProjectClaimConfig)
    (cd : ClusterDeployment) (ac : AccountClaim) (pc : ProjectClaim) :
    (∀ pre lastS, cfg.states = pre ++ [lastS] →
      (∀ s ∈ pre, s.name ≠ lastS.name) →
      cdGetCurrentState cd = lastS.name →
      cdGetNextState cfg cd = (lastS.name, 0))
    ∧ (∀ pre lastS, acfg.states = pre ++ [lastS] →
      (∀ s ∈ pre, s.name ≠ lastS.name) → lastS.name ≠ "" →
      ac.status.state = lastS.name →
      acGetNextState acfg ac = (lastS.name, 0))
    ∧ (∀ pre lastS, pcfg.states = pre ++ [lastS] →
      (∀ s ∈ pre, s.name ≠ lastS.name) → lastS.name ≠ "" →
      pc.status.state = lastS.name →
      pcGetNextState pcfg pc = (lastS.name, 0)) := by
  refine ⟨?_, ?_, ?_⟩
  · intro pre lastS hstates hpre hcur
    have hfound := findNextInStates_found (fun s => s.name == cdGetCurrentState cd)
      pre lastS []
      (fun s hs => by simp only [hcur, beq_eq_false_iff_ne]; exact hpre s hs)
      (by simp [hcur])
    simp only [cdGetNextState, hstates]
    rw [hfound]
  · intro pre lastS hstates hpre hne hcur
    have hfound := findNextInStates_found (claimMatches ac.status.state)
      pre lastS []
      (fun s hs => by
        simp only [claimMatches, hcur]
        simp [hpre s hs, hne])
      (by simp [claimMatches, hcur])
    simp only [acGetNextState, hstates]
    rw [hfound]
  · intro pre lastS hstates hpre hne hcur
    have hfound := findNextInStates_found (claimMatches pc.status.state)
      pre lastS []
      (fun s hs => by
        simp only [claimMatches, hcur]
        simp [hpre s hs, hne])
      (by simp [claimMatches, hcur])
    simp only [pcGetNextState, hstates]
    rw [hfound]

/-- Witness ClusterDeployment for C2: installed, hence derived state
"Running". -/
def c2wCD : ClusterDeployment :=
  { nspace := "ns", name := "c", labels := fun _ => none
    spec := { installed := true, clusterMetadataInfraID := none }
    status := { conditions := [], provisionRefName := none
                webConsoleURL := "", apiURL := "", installedTimestamp := none } }

/-- Witness AccountClaim for C2, already in the terminal "Ready" state. -/
def c2wAC : AccountClaim :=
  { nspace := "ns", name := "a", labels := fun _ => none
    spec := { byocAWSAccountID := "" }
    status := { state := "Ready", conditions := [] } }

/-- Witness ProjectClaim for C2. -/
def c2wPC : ProjectClaim :=
  { nspace := "ns", name := "p", labels := fun _ => none
    spec := { gcpProjectID := "" }
    status := { state := "Ready", conditions := [] } }

/-- Witness configuration for C2, ClusterDeployment kind, ending in
"Running". -/
def c2wCfg : ClusterDeploymentConfig :=
  { defaultDelaySeconds := 5
    states := [{ name := "Pending", durationSeconds := 1, conditions := [] },
               { name := "Running", durationSeconds := 1, conditions := [] }]
    failureScenarios := []
    dependsOnAccountClaim := false
    dependsOnProjectClaim := false }

/-- Witness configuration for C2, AccountClaim kind, ending in "Ready". -/
def c2wAcCfg : AccountClaimConfig :=
  { defaultDelaySeconds := 3
    states := [{ name := "Pending", durationSeconds := 2, conditions := [] },
               { name := "Ready", durationSeconds := 1, conditions := [] }]
    failureScenarios := [] }

/-- Witness configuration for C2, ProjectClaim kind, ending in "Ready". -/
def c2wPcCfg : ProjectClaimConfig :=
  { defaultDelaySeconds := 4
    states := [{ name := "Pending", durationSeconds := 1, conditions := [] },
               { name := "Ready", durationSeconds := 1, conditions := [] }]
    failureScenarios := [] }

/-- Witness for the amended C2 at concrete inputs: resources already in the
last configured state stay there with zero duration, for all three kinds. -/
theorem C2_witness :
    cdGetNextState c2wCfg c2wCD = ("Running", 0) ∧
    acGetNextState c2wAcCfg c2wAC = ("Ready", 0) ∧
    pcGetNextState c2wPcCfg c2wPC = ("Ready", 0) := by
  have h := C2_amended c2wCfg c2wAcCfg c2wPcCfg c2wCD c2wAC c2wPC
  refine ⟨?_, ?_, ?_⟩
  · exact h.1 [{ name := "Pending", durationSeconds := 1, conditions := [] }]
      { name := "Running", durationSeconds := 1, conditions := [] } rfl (by simp) (by decide)
  · exact h.2.1 [{ name := "Pending", durationSeconds := 2, conditions := [] }]
      { name := "Ready", durationSeconds := 1, conditions := [] } rfl (by simp) (by decide) rfl
  · exact h.2.2 [{ name := "Pending", durationSeconds := 1, conditions := [] }]
      { name := "Ready", durationSeconds := 1, conditions := [] } rfl (by simp) (by decide) rfl

/-- Lemma: a scenario returned by the loop is one of the listed scenarios and
has strictly positive probability; in particular a scenario with probability
0.0 is never returned, whatever the samples. -/
theorem evalScenarios_some_mem_pos (l : List FailureScenario) (f : Nat → ℚ) (i : Nat)
    (s : FailureScenario) (h : evalScenarios l f i = some s) :
    s ∈ l ∧ 0 < s.probability := by
  induction l generalizing i with
  | nil => simp [evalScenarios] at h
  | cons a t ih =>
    by_cases ha : 0 < a.probability
    · by_cases hr : f i < a.probability
      · simp only [evalScenarios, ha, hr, if_true] at h
        cases h
        exact ⟨by simp, ha⟩
      · simp only [evalScenarios, ha, hr, if_true, if_false] at h
        have := ih (i + 1) h
        exact ⟨by simp [this.1], this.2⟩
    · simp only [evalScenarios, ha, if_false] at h
      have := ih i h
      exact ⟨by simp [this.1], this.2⟩

/-- Lemma: when the loop reaches a scenario of probability at least one (the
scenarios before it all declined), that scenario fires, as long as every
sample is below one. -/
theorem evalScenarios_one_fires (pre : List FailureScenario) (s : FailureScenario)
    (post : List FailureScenario) (f : Nat → ℚ) (i : Nat)
    (hf : ∀ j, f j < 1) (hpre : evalScenarios pre f i = none) (hs : 1 ≤ s.probability) :
    evalScenarios (pre ++ s :: post) f i = some s := by
  induction pre generalizing i with
  | nil =>
    have hpos : 0 < s.probability := lt_of_lt_of_le one_pos hs
    have hlt : f i < s.probability := lt_of_lt_of_le (hf i) hs
    simp [evalScenarios, hpos, hlt]
  | cons a t ih =>
    by_cases ha : 0 < a.probability
    · by_cases hr : f i < a.probability
      · simp [evalScenarios, ha, hr] at hpre
      · simp only [evalScenarios, ha, hr, if_true, if_false] at hpre
        simp only [List.cons_append, evalScenarios, ha, hr, if_true, if_false]
        exact ih (i + 1) hpre
    · simp only [evalScenarios, ha, if_false] at hpre
      simp only [List.cons_append, evalScenarios, ha, if_false]
      exact ih i hpre

/-- Lemma: when no listed scenario has positive probability the loop returns
no failure. -/
theorem evalScenarios_none_of_nonpos (l : List FailureScenario) (f : Nat → ℚ) (i : Nat)
    (h : ∀ s ∈ l, s.probability ≤ 0) :
    evalScenarios l f i = none := by
  induction l generalizing i with
  | nil => rfl
  | cons a t ih =>
    have ha : ¬ 0 < a.probability := not_lt.mpr (h a (by simp))
    simp only [evalScenarios, ha, if_false]
    exact ih i (fun s hs => h s (by simp [hs]))

/-- C3: when no override is stored for the resource identity, `ShouldFail`
evaluates the configured failure scenarios of the kind in declaration order against
the uniform sample stream (one fresh sample per positive-probability scenario;
a zero-probability scenario can never fire, so skipping its draw is
outcome-equivalent); for every sample stream within [0,1): a returned scenario
is a configured one with strictly positive probability (so probability 0.0
never fires), a scenario of probability 1.0 fires whenever it is reached, and
when no scenario fires the result is no-failure. -/
theorem C3 (e : Engine) (resourceType nspace name : String) (samples : Nat → ℚ)
    (hover : e.overrides (makeKey resourceType nspace name) = none)
    (hf : ∀ i, 0 ≤ samples i ∧ samples i < 1) :
    shouldFail e resourceType nspace name samples
        = evalScenarios (scenariosFor e.config resourceType) samples 0
    ∧ (∀ s, shouldFail e resourceType nspace name samples = some s →
        s ∈ scenariosFor e.config resourceType ∧ 0 < s.probability)
    ∧ (∀ pre s post, scenariosFor e.config resourceType = pre ++ s :: post →
        evalScenarios pre samples 0 = none → 1 ≤ s.probability →
        shouldFail e resourceType nspace name samples = some s)
    ∧ ((∀ s ∈ scenariosFor e.config resourceType, s.probability ≤ 0) →
        shouldFail e resourceType nspace name samples = none) := by
  have hsf : shouldFail e resourceType nspace name samples
      = evalScenarios (scenariosFor e.config resourceType) samples 0 := by
    simp only [shouldFail, hover]
  refine ⟨hsf, ?_, ?_, ?_⟩
  · intro s h
    exact evalScenarios_some_mem_pos _ samples 0 s (hsf ▸ h)
  · intro pre s post hsplit hpre hs
    rw [hsf, hsplit]
    exact evalScenarios_one_fires pre s post samples 0 (fun j => (hf j).2) hpre hs
  · intro h
    rw [hsf]
    exact evalScenarios_none_of_nonpos _ samples 0 h

/-- Zero-probability scenario of the C3 witness. -/
def c3ZeroScenario : FailureScenario :=
  { probability := 0, condition := "NeverFires", message := "never", reason := "Zero" }

/-- Certain scenario of the C3 witness. -/
def c3OneScenario : FailureScenario :=
  { probability := 1, condition := "AlwaysFires", message := "always", reason := "One" }

/-- Engine of the C3 witness: no overrides, one zero-probability scenario
declared before one certain scenario. -/
def c3Engine : Engine :=
  { config :=
      { clusterDeployment := some
          { defaultDelaySeconds := 5
            states := []
            failureScenarios := [c3ZeroScenario, c3OneScenario]
            dependsOnAccountClaim := false
            dependsOnProjectClaim := false }
        accountClaim := none
        projectClaim := none }
    overrides := fun _ => none }

/-- Witness for C3 at concrete inputs: with samples constantly one half, the
zero-probability scenario is skipped and the certain scenario fires. -/
theorem C3_witness :
    shouldFail c3Engine "ClusterDeployment" "default" "cluster-1" (fun _ => 1/2)
      = some c3OneScenario := by
  have h := C3 c3Engine "ClusterDeployment" "default" "cluster-1" (fun _ => 1/2)
    rfl (fun i => ⟨by norm_num, by norm_num⟩)
  exact h.2.2.1 [c3ZeroScenario] c3OneScenario [] rfl
    (by norm_num [evalScenarios, c3ZeroScenario]) (by norm_num [c3OneScenario])

/-- C4: an override carrying both the force-success flag and a forced failure
scenario makes `ShouldFail` return no-failure for every sample stream:
force-success wins over the forced failure and the probabilistic scenarios are
never consulted. -/
theorem C4 (e : Engine) (resourceType nspace name : String) (o : ResourceOverride)
    (f : FailureScenario)
    (hover : e.overrides (makeKey resourceType nspace name) = some o)
    (hsucc : o.forceSuccess = true) (_hfail : o.forceFail = some f) :
    ∀ samples, shouldFail e resourceType nspace name samples = none := by
  intro samples
  simp [shouldFail, hover, hsucc]

/-- Forced failure scenario of the C4 witness. -/
def c4Fail : FailureScenario :=
  { probability := 0, condition := "ForcedFailure", message := "forced", reason := "Forced" }

/-- Override of the C4 witness: force-success and a forced failure together. -/
def c4Override : ResourceOverride :=
  { resourceName := "cluster-1"
    delaySeconds := none
    forceFail := some c4Fail
    forceSuccess := true }

/-- Engine of the C4 witness: the override is stored for the resource, and a
certain probabilistic scenario is configured that must never be consulted. -/
def c4Engine : Engine :=
  { config :=
      { clusterDeployment := some
          { defaultDelaySeconds := 5
            states := []
            failureScenarios :=
              [{ probability := 1, condition := "WouldFire", message := "would", reason := "R" }]
            dependsOnAccountClaim := false
            dependsOnProjectClaim := false }
        accountClaim := none
        projectClaim := none }
    overrides := fun k =>
      if k = "ClusterDeployment/default/cluster-1" then some c4Override else none }

/-- Witness for C4 at concrete inputs. -/
theorem C4_witness :
    shouldFail c4Engine "ClusterDeployment" "default" "cluster-1" (fun _ => 0) = none := by
  exact C4 c4Engine "ClusterDeployment" "default" "cluster-1" c4Override c4Fail
    (by simp [c4Engine, makeKey]) rfl rfl (fun _ => 0)

/-- Lemma: the length of a concatenation of strings adds up. -/
theorem string_length_append (a b : String) : (a ++ b).length = a.length + b.length := by
  cases a
  cases b
  simp [String.length, String.append]

/-- Lemma: a synthesised GCP project id is never the empty string. -/
theorem synthGCPProjectID_ne_empty (name : String) (t : Int) :
    synthGCPProjectID name t ≠ "" := by
  intro h
  have hlen := congrArg String.length h
  rw [synthGCPProjectID, string_length_append, string_length_append,
    string_length_append] at hlen
  have h8 : ("project-" : String).length = 8 := rfl
  have h1 : ("-" : String).length = 1 := rfl
  have h0 : ("" : String).length = 0 := rfl
  rw [h8, h1, h0] at hlen
  omega

/-- Lemma: a synthesised AWS account id is never the empty string. -/
theorem synthAWSAccountID_ne_empty (t : Int) : synthAWSAccountID t ≠ "" := by
  intro h
  have hlen := congrArg String.length h
  rw [synthAWSAccountID, string_length_append] at hlen
  have h9 : ("123456789" : String).length = 9 := rfl
  have h0 : ("" : String).length = 0 := rfl
  rw [h9, h0] at hlen
  omega

/-- C5: `ApplyState` is idempotent with respect to derived artifacts: a
ProjectClaim with no project id entering PendingProject gets a non-empty GCP
project id synthesised, and any application of any state (in particular
re-applying PendingProject or later Ready) to a claim already carrying a
project id leaves that id unchanged; likewise an AccountClaim reaching Ready
gets a non-empty AWS account id exactly once and keeps it on every
re-application. -/
theorem C5 (pcfg : ProjectClaimConfig) (acfg : AccountClaimConfig)
    (pc pc2 : ProjectClaim) (ac ac2 : AccountClaim)
    (hpc : pc.spec.gcpProjectID = "") (hac : ac.spec.byocAWSAccountID = "")
    (hpc2 : pc2.spec.gcpProjectID ≠ "") (hac2 : ac2.spec.byocAWSAccountID ≠ "") :
    (∀ t u, (pcApplyState pcfg pc claimStatusPendingProject t u).1.spec.gcpProjectID ≠ "")
    ∧ (∀ state t u,
        (pcApplyState pcfg pc2 state t u).1.spec.gcpProjectID = pc2.spec.gcpProjectID)
    ∧ (∀ t u, (acApplyState acfg ac claimStatusReady t u).1.spec.byocAWSAccountID ≠ "")
    ∧ (∀ state t u,
        (acApplyState acfg ac2 state t u).1.spec.byocAWSAccountID
          = ac2.spec.byocAWSAccountID) := by
  refine ⟨?_, ?_, ?_, ?_⟩
  · intro t u
    simp [pcApplyState, claimStatusPending, claimStatusPendingProject, hpc]
    exact synthGCPProjectID_ne_empty _ _
  · intro state t u
    simp only [pcApplyState]
    split_ifs <;> simp_all
  · intro t u
    simp [acApplyState, claimStatusPending, claimStatusReady, hac]
    exact synthAWSAccountID_ne_empty _
  · intro state t u
    simp only [acApplyState]
    split_ifs <;> simp_all

/-- Trivial ProjectClaim configuration of the C5 witness. -/
def c5PcCfg : ProjectClaimConfig :=
  { defaultDelaySeconds := 4, states := [], failureScenarios := [] }

/-- Trivial AccountClaim configuration of the C5 witness. -/
def c5AcCfg : AccountClaimConfig :=
  { defaultDelaySeconds := 3, states := [], failureScenarios := [] }

/-- Fresh ProjectClaim of the C5 witness, with no project id. -/
def c5PC : ProjectClaim :=
  { nspace := "ns", name := "p", labels := fun _ => none
    spec := { gcpProjectID := "" }
    status := { state := "Pending", conditions := [] } }

/-- ProjectClaim of the C5 witness already carrying a project id. -/
def c5PCcarrying : ProjectClaim :=
  { nspace := "ns", name := "p", labels := fun _ => none
    spec := { gcpProjectID := "project-p-1" }
    status := { state := "PendingProject", conditions := [] } }

/-- Fresh AccountClaim of the C5 witness, with no account id. -/
def c5AC : AccountClaim :=
  { nspace := "ns", name := "a", labels := fun _ => none
    spec := { byocAWSAccountID := "" }
    status := { state := "Pending", conditions := [] } }

/-- AccountClaim of the C5 witness already carrying an account id. -/
def c5ACcarrying : AccountClaim :=
  { nspace := "ns", name := "a", labels := fun _ => none
    spec := { byocAWSAccountID := "123456789005" }
    status := { state := "Ready", conditions := [] } }

/-- Witness for C5 at concrete inputs: the id is synthesised non-empty on the
fresh claims and re-application leaves the stored ids untouched. -/
theorem C5_witness :
    (pcApplyState c5PcCfg c5PC claimStatusPendingProject 1 2).1.spec.gcpProjectID ≠ ""
    ∧ (pcApplyState c5PcCfg c5PCcarrying claimStatusPendingProject 3 4).1.spec.gcpProjectID
        = "project-p-1"
    ∧ (acApplyState c5AcCfg c5AC claimStatusReady 1 2).1.spec.byocAWSAccountID ≠ ""
    ∧ (acApplyState c5AcCfg c5ACcarrying claimStatusReady 3 4).1.spec.byocAWSAccountID
        = "123456789005" := by
  have h := C5 c5PcCfg c5AcCfg c5PC c5PCcarrying c5AC c5ACcarrying rfl rfl
    (by decide) (by decide)
  exact ⟨h.1 1 2, h.2.1 claimStatusPendingProject 3 4, h.2.2.1 1 2,
    h.2.2.2 claimStatusReady 3 4⟩

/-- Configuration of the C6 counterexample. -/
def c6Cfg : ProjectClaimConfig :=
  { defaultDelaySeconds := 4
    states := [{ name := "Pending", durationSeconds := 1, conditions := [] },
               { name := "Ready", durationSeconds := 1, conditions := [] }]
    failureScenarios := [] }

/-- ProjectClaim of the C6 counterexample. -/
def c6PC : ProjectClaim :=
  { nspace := "ns", name := "p", labels := fun _ => none
    spec := { gcpProjectID := "" }
    status := { state := "Pending", conditions := [] } }

/-- C6, counterexample: the state "Bogus" is absent from the configured
sequence, yet the ProjectClaim `ApplyState` returns no error and even stores
the unknown state. -/
theorem C6_counterexample :
    (∀ s ∈ c6Cfg.states, s.name ≠ "Bogus")
    ∧ (pcApplyState c6Cfg c6PC "Bogus" 0 0).2 = none
    ∧ (pcApplyState c6Cfg c6PC "Bogus" 0 0).1.status.state = "Bogus" := by
  refine ⟨by decide, by decide, by decide⟩

/-- C6, amended: only the ClusterDeployment state machine validates the target
state: its `ApplyState` returns the "state not found" error exactly when the
name is absent from the configured sequence, and in that case returns the
resource unmodified (so the call is retryable); when the state is present it
succeeds. The AccountClaim and ProjectClaim `ApplyState` never return an
error, whatever the state and the configuration. -/
theorem C6_amended
    (cfg : ClusterDeploymentConfig) (acfg : AccountClaimConfig) (pcfg : ProjectClaimConfig)
    (cd : ClusterDeployment) (ac : AccountClaim) (pc : ProjectClaim)
    (state : String) (now u : Int) :
    ((cdApplyState cfg cd state now).2.isSome ↔ ∀ s ∈ cfg.states, s.name ≠ state)
    ∧ ((∀ s ∈ cfg.states, s.name ≠ state) →
        cdApplyState cfg cd state now
          = (cd, some ("state " ++ state ++ " not found in configuration")))
    ∧ (acApplyState acfg ac state now u).2 = none
    ∧ (pcApplyState pcfg pc state now u).2 = none := by
  have hfindnone : (∀ s ∈ cfg.states, s.name ≠ state) ↔
      findStateConfig cfg.states state = none := by
    rw [findStateConfig, List.find?_eq_none]
    simp
  refine ⟨?_, ?_, ?_, ?_⟩
  · cases hfind : findStateConfig cfg.states state with
    | none =>
      simp only [cdApplyState, hfind]
      simpa [hfindnone] using hfind
    | some sc =>
      have h2 : (cdApplyState cfg cd state now).2 = none := by
        simp only [cdApplyState, hfind]
        split_ifs <;> rfl
      rw [h2]
      simp only [Option.isSome_none, Bool.false_eq_true, false_iff]
      intro hall
      rw [hfindnone] at hall
      rw [hall] at hfind
      cases hfind
  · intro hall
    rw [hfindnone] at hall
    simp only [cdApplyState, hall]
  · simp only [acApplyState]
    split_ifs <;> rfl
  · simp only [pcApplyState]
    split_ifs <;> rfl

/-- Witness configuration for C6, ClusterDeployment kind. -/
def c6wCfg : ClusterDeploymentConfig :=
  { defaultDelaySeconds := 5
    states := [{ name := "Pending", durationSeconds := 1, conditions := [] }]
    failureScenarios := []
    dependsOnAccountClaim := false
    dependsOnProjectClaim := false }

/-- Witness ClusterDeployment for C6. -/
def c6wCD : ClusterDeployment :=
  { nspace := "ns", name := "c", labels := fun _ => none
    spec := { installed := false, clusterMetadataInfraID := none }
    status := { conditions := [], provisionRefName := none
                webConsoleURL := "", apiURL := "", installedTimestamp := none } }

/-- Witness AccountClaim configuration for C6. -/
def c6wAcCfg : AccountClaimConfig :=
  { defaultDelaySeconds := 3, states := [], failureScenarios := [] }

/-- Witness AccountClaim for C6. -/
def c6wAC : AccountClaim :=
  { nspace := "ns", name := "a", labels := fun _ => none
    spec := { byocAWSAccountID := "" }
    status := { state := "", conditions := [] } }

/-- Witness for the amended C6 at concrete inputs: the ClusterDeployment
machine errors on the absent state "Missing" leaving the resource unchanged,
and the claim machines never err. -/
theorem C6_witness :
    cdApplyState c6wCfg c6wCD "Missing" 0
      = (c6wCD, some "state Missing not found in configuration")
    ∧ (acApplyState c6wAcCfg c6wAC "Missing" 0 0).2 = none := by
  have h := C6_amended c6wCfg c6wAcCfg c6Cfg c6wCD c6wAC c6PC "Missing" 0 0
  exact ⟨h.2.1 (by decide), h.2.2.1⟩

/-- Configuration of the C7 counterexample: the "Pending" entry declares a
condition of its own. -/
def c7Cfg : ProjectClaimConfig :=
  { defaultDelaySeconds := 4
    states := [{ name := "Pending", durationSeconds := 1
                 conditions := [{ type := "ConfiguredCond", status := "True"
                                  reason := "ConfiguredReason", message := "configured" }] }]
    failureScenarios := [] }

/-- ProjectClaim of the C7 counterexample. -/
def c7PC : ProjectClaim :=
  { nspace := "ns", name := "p", labels := fun _ => none
    spec := { gcpProjectID := "" }
    status := { state := "", conditions := [] } }

/-- C7, counterexample: applying "Pending" to a ProjectClaim installs the
hard-coded Pending condition, not the condition declared in the configuration
entry for that state stamped with the application time. -/
theorem C7_counterexample :
    (pcApplyState c7Cfg c7PC claimStatusPending 7 0).1.status.conditions
      = [pcPendingCondition 7]
    ∧ (pcApplyState c7Cfg c7PC claimStatusPending 7 0).1.status.conditions
      ≠ [{ type := "ConfiguredCond", status := ConditionStatus.ctrue
           reason := "ConfiguredReason", message := "configured"
           lastTransitionTime := 7, lastProbeTime := 7 }] := by
  refine ⟨by decide, by decide⟩

/-- C7, amended: a successful ClusterDeployment `ApplyState` replaces the
condition list wholesale with exactly the conditions declared in the
configuration entry for the applied state, each stamped with the application
time as both timestamps; the AccountClaim and ProjectClaim `ApplyState`
instead replace the condition list with a fixed kind-specific condition for
each recognised state (also stamped with the application time), ignoring the
conditions declared in configuration, and leave the condition list unchanged
for unrecognised states. -/
theorem C7_amended
    (cfg : ClusterDeploymentConfig) (acfg : AccountClaimConfig) (pcfg : ProjectClaimConfig)
    (cd : ClusterDeployment) (ac : AccountClaim) (pc : ProjectClaim)
    (state : String) (now u : Int) :
    (∀ sc, findStateConfig cfg.states state = some sc →
      (cdApplyState cfg cd state now).1.status.conditions
        = sc.conditions.map (fun cc =>
            { type := cc.type
              status :=
                if cc.status = "True" then ConditionStatus.ctrue
                else if cc.status = "False" then ConditionStatus.cfalse
                else ConditionStatus.cunknown
              reason := cc.reason
              message := cc.message
              lastTransitionTime := now
              lastProbeTime := now }))
    ∧ (pcApplyState pcfg pc claimStatusPending now u).1.status.conditions
        = [pcPendingCondition now]
    ∧ (pcApplyState pcfg pc claimStatusPendingProject now u).1.status.conditions
        = [pcPendingProjectCondition now]
    ∧ (pcApplyState pcfg pc claimStatusReady now u).1.status.conditions
        = [pcReadyCondition now]
    ∧ (pcApplyState pcfg pc claimStatusError now u).1.status.conditions
        = [pcErrorCondition now]
    ∧ (state ∉ ["Pending", "PendingProject", "Ready", "Error"] →
        (pcApplyState pcfg pc state now u).1.status.conditions = pc.status.conditions)
    ∧ (acApplyState acfg ac claimStatusPending now u).1.status.conditions
        = [acPendingCondition now]
    ∧ (acApplyState acfg ac claimStatusReady now u).1.status.conditions
        = [acReadyCondition now]
    ∧ (acApplyState acfg ac claimStatusError now u).1.status.conditions
        = [acErrorCondition now]
    ∧ (state ∉ ["Pending", "Ready", "Error"] →
        (acApplyState acfg ac state now u).1.status.conditions = ac.status.conditions) := by
  refine ⟨?_, ?_, ?_, ?_, ?_, ?_, ?_, ?_, ?_, ?_⟩
  · intro sc hfind
    simp only [cdApplyState, hfind, buildConditions]
    split_ifs <;> rfl
  · simp [pcApplyState, claimStatusPending]
  · simp [pcApplyState, claimStatusPending, claimStatusPendingProject]
    split_ifs <;> rfl
  · simp [pcApplyState, claimStatusPending, claimStatusPendingProject, claimStatusReady]
    split_ifs <;> rfl
  · simp [pcApplyState, claimStatusPending, claimStatusPendingProject, claimStatusReady,
      claimStatusError]
  · intro h
    simp only [List.mem_cons, List.not_mem_nil, or_false, not_or] at h
    obtain ⟨h1, h2, h3, h4⟩ := h
    simp [pcApplyState, claimStatusPending, claimStatusPendingProject, claimStatusReady,
      claimStatusError, h1, h2, h3, h4]
  · simp [acApplyState, claimStatusPending]
  · simp [acApplyState, claimStatusPending, claimStatusReady]
    split_ifs <;> rfl
  · simp [acApplyState, claimStatusPending, claimStatusReady, claimStatusError]
  · intro h
    simp only [List.mem_cons, List.not_mem_nil, or_false, not_or] at h
    obtain ⟨h1, h2, h3⟩ := h
    simp [acApplyState, claimStatusPending, claimStatusReady, claimStatusError, h1, h2, h3]

/-- Witness configuration for the amended C7, ClusterDeployment kind. -/
def c7wCfg : ClusterDeploymentConfig :=
  { defaultDelaySeconds := 5
    states := [{ name := "Provisioning", durationSeconds := 2
                 conditions := [{ type := "DeprovisionLaunchError", status := "False"
                                  reason := "Provisioning", message := "Cluster is provisioning" }] }]
    failureScenarios := []
    dependsOnAccountClaim := false
    dependsOnProjectClaim := false }

/-- Witness ClusterDeployment for the amended C7. -/
def c7wCD : ClusterDeployment :=
  { nspace := "ns", name := "c", labels := fun _ => none
    spec := { installed := false, clusterMetadataInfraID := none }
    status := { conditions := [], provisionRefName := none
                webConsoleURL := "", apiURL := "", installedTimestamp := none } }

/-- Witness AccountClaim for the amended C7. -/
def c7wAC : AccountClaim :=
  { nspace := "ns", name := "a", labels := fun _ => none
    spec := { byocAWSAccountID := "" }
    status := { state := "", conditions := [] } }

/-- Witness AccountClaim configuration for the amended C7. -/
def c7wAcCfg : AccountClaimConfig :=
  { defaultDelaySeconds := 3, states := [], failureScenarios := [] }

/-- Witness for the amended C7 at concrete inputs: the ClusterDeployment gets
exactly the configured condition stamped at time 9, and the ProjectClaim in an
unrecognised state keeps its condition list. -/
theorem C7_witness :
    (cdApplyState c7wCfg c7wCD "Provisioning" 9).1.status.conditions
      = [{ type := "DeprovisionLaunchError", status := ConditionStatus.cfalse
           reason := "Provisioning", message := "Cluster is provisioning"
           lastTransitionTime := 9, lastProbeTime := 9 }]
    ∧ (pcApplyState c7Cfg c7PC "Unknown" 9 0).1.status.conditions = [] := by
  have h1 := C7_amended c7wCfg c7wAcCfg c7Cfg c7wCD c7wAC c7PC "Provisioning" 9 0
  have h2 := C7_amended c7wCfg c7wAcCfg c7Cfg c7wCD c7wAC c7PC "Unknown" 9 0
  refine ⟨?_, h2.2.2.2.2.2.1 (by decide)⟩
  have hmap := h1.1 { name := "Provisioning", durationSeconds := 2
                      conditions := [{ type := "DeprovisionLaunchError", status := "False"
                                       reason := "Provisioning", message := "Cluster is provisioning" }] } rfl
  rw [hmap]
  rfl

/-- C8: `GetTransitionDelay` returns the delay stored in the resource
override whenever one is set, and the supplied default unchanged when no
override exists or the override carries no delay; setting a 30 second delay
override on a resource whose default is 5 seconds makes it return 30 seconds,
and clearing the override restores the 5 second default. -/
theorem C8 (e : Engine) (resourceType nspace name : String) (d ds : Int)
    (o : ResourceOverride) :
    (e.overrides (makeKey resourceType nspace name) = some o → o.delaySeconds = some ds →
      getTransitionDelay e resourceType nspace name d = ds * second)
    ∧ (e.overrides (makeKey resourceType nspace name) = some o → o.delaySeconds = none →
      getTransitionDelay e resourceType nspace name d = d)
    ∧ (e.overrides (makeKey resourceType nspace name) = none →
      getTransitionDelay e resourceType nspace name d = d)
    ∧ getTransitionDelay
        (setResourceOverride e resourceType nspace name (delayOnlyOverride name 30))
        resourceType nspace name (5 * second) = 30 * second
    ∧ getTransitionDelay
        (clearResourceOverride
          (setResourceOverride e resourceType nspace name (delayOnlyOverride name 30))
          resourceType nspace name)
        resourceType nspace name (5 * second) = 5 * second := by
  refine ⟨?_, ?_, ?_, ?_, ?_⟩
  · intro ho hd
    simp [getTransitionDelay, ho, hd]
  · intro ho hd
    simp [getTransitionDelay, ho, hd]
  · intro ho
    simp [getTransitionDelay, ho]
  · simp [getTransitionDelay, setResourceOverride, delayOnlyOverride]
  · simp [getTransitionDelay, clearResourceOverride, setResourceOverride]

/-- Engine of the C8 witness, with an override carrying a 30 second delay
stored for the resource. -/
def c8Engine : Engine :=
  { config := { clusterDeployment := none, accountClaim := none, projectClaim := none }
    overrides := fun k =>
      if k = "ClusterDeployment/default/cluster-1" then
        some { resourceName := "cluster-1", delaySeconds := some 30
               forceFail := none, forceSuccess := false }
      else none }

/-- Witness for C8 at concrete inputs: the stored 30 second override wins over
the 5 second default, and set-then-clear restores the default. -/
theorem C8_witness :
    getTransitionDelay c8Engine "ClusterDeployment" "default" "cluster-1" (5 * second)
      = 30 * second
    ∧ getTransitionDelay c8Engine "ClusterDeployment" "default" "cluster-2" (5 * second)
      = 5 * second
    ∧ getTransitionDelay
        (clearResourceOverride
          (setResourceOverride c8Engine "AccountClaim" "ns" "a" (delayOnlyOverride "a" 30))
          "AccountClaim" "ns" "a")
        "AccountClaim" "ns" "a" (5 * second) = 5 * second := by
  have h1 := C8 c8Engine "ClusterDeployment" "default" "cluster-1" (5 * second) 30
    { resourceName := "cluster-1", delaySeconds := some 30
      forceFail := none, forceSuccess := false }
  have h2 := C8 c8Engine "ClusterDeployment" "default" "cluster-2" (5 * second) 30
    { resourceName := "cluster-1", delaySeconds := some 30
      forceFail := none, forceSuccess := false }
  have h3 := C8 c8Engine "AccountClaim" "ns" "a" (5 * second) 30
    { resourceName := "a", delaySeconds := some 30
      forceFail := none, forceSuccess := false }
  exact ⟨h1.1 (by decide) rfl, h2.2.2.1 (by decide), h3.2.2.2.2⟩

/-- Lemma: the claim-scanning loop is decided by the first item whose
correlation label matches the cluster id. -/
theorem claimLoop_eq_find (labelOf : α → Option String) (stateOf : α → String)
    (clusterID : String) (items : List α) :
    claimLoop labelOf stateOf clusterID items =
      match items.find? (fun c => (labelOf c).getD "" == clusterID) with
      | none => (false, 2 * second)
      | some c =>
        if stateOf c = claimStatusReady then (true, 0) else (false, 2 * second) := by
  induction items with
  | nil => rfl
  | cons a t ih =>
    by_cases h : (labelOf a).getD "" = clusterID
    · simp [claimLoop, List.find?, h]
    · have hb : ((labelOf a).getD "" == clusterID) = false := beq_eq_false_iff_ne.mpr h
      simp only [claimLoop, if_neg h, List.find?, hb]
      exact ih

/-- C9: the ClusterDeployment dependency checks return ready with zero retry
when the resource carries no correlation label; not-ready with the longer 5
second retry when listing fails (instead of propagating an error); not-ready
with the short 2 second retry when no claim in the namespace matches the
correlation key or the matching (first-matching) claim is not in the Ready
state; and ready with zero retry exactly when the state of the matching claim is
the terminal Ready state. -/
theorem C9 (cd : ClusterDeployment) (clusterID : String)
    (items : List AccountClaim) (pitems : List ProjectClaim) :
    (cd.labels labelsID = none →
      (∀ r, checkAccountClaim cd r = (true, 0)) ∧ (∀ r, checkProjectClaim cd r = (true, 0)))
    ∧ (cd.labels labelsID = some clusterID →
        checkAccountClaim cd (Except.error ()) = (false, 5 * second)
        ∧ checkProjectClaim cd (Except.error ()) = (false, 5 * second)
        ∧ (items.find? (fun a => (a.labels labelsID).getD "" == clusterID) = none →
            checkAccountClaim cd (Except.ok items) = (false, 2 * second))
        ∧ (∀ ac, items.find? (fun a => (a.labels labelsID).getD "" == clusterID) = some ac →
            (ac.status.state = claimStatusReady →
              checkAccountClaim cd (Except.ok items) = (true, 0))
            ∧ (ac.status.state ≠ claimStatusReady →
              checkAccountClaim cd (Except.ok items) = (false, 2 * second)))
        ∧ (pitems.find? (fun p => (p.labels labelsID).getD "" == clusterID) = none →
            checkProjectClaim cd (Except.ok pitems) = (false, 2 * second))
        ∧ (∀ pc, pitems.find? (fun p => (p.labels labelsID).getD "" == clusterID) = some pc →
            (pc.status.state = claimStatusReady →
              checkProjectClaim cd (Except.ok pitems) = (true, 0))
            ∧ (pc.status.state ≠ claimStatusReady →
              checkProjectClaim cd (Except.ok pitems) = (false, 2 * second)))) := by
  constructor
  · intro hnone
    constructor
    · intro r
      simp only [checkAccountClaim, hnone]
    · intro r
      simp only [checkProjectClaim, hnone]
  · intro hsome
    refine ⟨by simp only [checkAccountClaim, hsome],
      by simp only [checkProjectClaim, hsome], ?_, ?_, ?_, ?_⟩
    · intro hfind
      simp only [checkAccountClaim, hsome, claimLoop_eq_find, hfind]
    · intro ac hfind
      constructor
      · intro hready
        simp only [checkAccountClaim, hsome, claimLoop_eq_find, hfind, hready]
        simp
      · intro hnready
        simp only [checkAccountClaim, hsome, claimLoop_eq_find, hfind]
        rw [if_neg hnready]
    · intro hfind
      simp only [checkProjectClaim, hsome, claimLoop_eq_find, hfind]
    · intro pc hfind
      constructor
      · intro hready
        simp only [checkProjectClaim, hsome, claimLoop_eq_find, hfind, hready]
        simp
      · intro hnready
        simp only [checkProjectClaim, hsome, claimLoop_eq_find, hfind]
        rw [if_neg hnready]

/-- Witness ClusterDeployment for C9, carrying the correlation label. -/
def c9CD : ClusterDeployment :=
  { nspace := "default", name := "c"
    labels := fun k => if k = labelsID then some "cluster-42" else none
    spec := { installed := false, clusterMetadataInfraID := none }
    status := { conditions := [], provisionRefName := none
                webConsoleURL := "", apiURL := "", installedTimestamp := none } }

/-- Witness ClusterDeployment for C9 without the correlation label. -/
def c9CDnoLabel : ClusterDeployment :=
  { nspace := "default", name := "c", labels := fun _ => none
    spec := { installed := false, clusterMetadataInfraID := none }
    status := { conditions := [], provisionRefName := none
                webConsoleURL := "", apiURL := "", installedTimestamp := none } }

/-- Witness AccountClaim for C9, matching the correlation key and Ready. -/
def c9AC : AccountClaim :=
  { nspace := "default", name := "a"
    labels := fun k => if k = labelsID then some "cluster-42" else none
    spec := { byocAWSAccountID := "" }
    status := { state := "Ready", conditions := [] } }

/-- Witness for C9 at concrete inputs: no label yields ready, a failing list
yields the 5 second retry, an empty namespace yields the 2 second retry, and a
matching Ready claim yields ready. -/
theorem C9_witness :
    checkAccountClaim c9CDnoLabel (Except.ok []) = (true, 0)
    ∧ checkAccountClaim c9CD (Except.error ()) = (false, 5 * second)
    ∧ checkAccountClaim c9CD (Except.ok []) = (false, 2 * second)
    ∧ checkAccountClaim c9CD (Except.ok [c9AC]) = (true, 0) := by
  have hno := C9 c9CDnoLabel "cluster-42" [] []
  have h := C9 c9CD "cluster-42" [] []
  have hm := C9 c9CD "cluster-42" [c9AC] []
  refine ⟨(hno.1 rfl).1 (Except.ok []), (h.2 rfl).1, (h.2 rfl).2.2.1 rfl, ?_⟩
  exact ((hm.2 rfl).2.2.2.1 c9AC (by simp [List.find?, c9AC, labelsID])).1 rfl

/-- C10: `SetResourceOverride` stores the supplied override as the sole
override for the resource key, replacing any previously stored override
wholesale rather than merging fields; consequently, after setting a delay-only
override (the shape built by the HTTP delay endpoint) on a resource — even one
that previously had a forced-failure override — `ShouldFail` for that resource
falls back to the configured probabilistic scenarios of the kind. -/
theorem C10 (e : Engine) (resourceType nspace name : String) (d : Int)
    (samples : Nat → ℚ) :
    (setResourceOverride e resourceType nspace name (delayOnlyOverride name d)).overrides
        (makeKey resourceType nspace name) = some (delayOnlyOverride name d)
    ∧ shouldFail (setResourceOverride e resourceType nspace name (delayOnlyOverride name d))
        resourceType nspace name samples
      = evalScenarios (scenariosFor e.config resourceType) samples 0 := by
  constructor
  · simp [setResourceOverride]
  · simp [shouldFail, setResourceOverride, delayOnlyOverride]
